import Mathlib

/-!
Shallow embedding of the CityCare complaint/resource allocation core, taken
from `backend/routes/admin_routes.py`, `backend/routes/user_routes.py`,
`backend/dao.py` and `backend/utils.py`.

Each database table is a Lean list in insertion (rowid) order; the ORM call
`.first()` is `List.find?`, `.all()` on a filtered query is `List.filter`,
and mutating the single object returned by `.first()` is `updateFirst`.
The session factory in `dao.py` is built with `autoflush=False`, so inside
one request handler a SQL query sees only rows committed before the handler
started: rows registered with `db.add` earlier in the same handler are not
visible to later queries of that handler.  A handler that raises commits
nothing (the session is discarded), so an error result carries no successor
state.  Timestamps (`datetime.utcnow`) are abstracted as a `Nat` supplied to
each operation; generated UUID primary keys are abstracted as a counter kept
in the database state.  Status and priority columns are free-form strings in
the source schema (`String(20)` columns with string literals), so they are
embedded as `String`, not as closed enumerations.
-/

namespace CityCare

/-! Data model, embedded handlers, the spec-modelled transition operation,
and the concrete database fixtures used by witnesses and counterexamples. -/

/-- Row of the `resources` table (`dao.py`, class `Resource`); columns used
by the allocation core. -/
structure Resource where
  id : String
  name : String
  type : String
  service_category : String
  availability_status : String
  contact_person : Option String
  contact_phone : Option String
  is_active : Bool
  created_at : Nat
  updated_at : Nat
  deriving Repr, DecidableEq

/-- Row of the `resource_assignments` table (`dao.py`, class
`ResourceAssignment`). -/
structure ResourceAssignment where
  id : Nat
  complaint_id : String
  resource_id : String
  assigned_by : String
  assigned_at : Nat
  start_time : Option Nat
  end_time : Option Nat
  status : String
  notes : Option String
  estimated_hours : Option Nat
  deriving Repr, DecidableEq

/-- Row of the `complaints` table (`dao.py`, class `Complaint`); columns used
by the allocation core. -/
structure Complaint where
  id : String
  title : String
  description : String
  service_type : String
  status : String
  priority : String
  reporter_id : String
  deriving Repr, DecidableEq

/-- Row of the `complaint_status_history` table (`dao.py`, class
`ComplaintStatusHistory`). -/
structure ComplaintStatusHistory where
  complaint_id : String
  status : String
  note : String
  updated_by : String
  created_at : Nat
  deriving Repr, DecidableEq

/-- The durable database state: the four tables of the core, in insertion
order, plus a counter abstracting generated primary keys. -/
structure DB where
  complaints : List Complaint
  resources : List Resource
  assignments : List ResourceAssignment
  history : List ComplaintStatusHistory
  next_id : Nat
  deriving Repr, DecidableEq

/-- HTTP-level failures raised by the handlers: `notFound` is
`HTTPException(status_code=404)`; `invalidTransition` is the typed error of
the spec for unreachable status targets; `internalError` stands for an
uncaught Python exception escaping the handler. -/
inductive ApiError where
  | notFound
  | invalidTransition
  | internalError
  deriving Repr, DecidableEq

/-- The filter `ResourceAssignment.status.in_(["Assigned", "In Progress"])`
used by both the assign and the unassign handler. -/
def isActiveStatus (s : String) : Bool :=
  s == "Assigned" || s == "In Progress"

/-- Embeds `db.query(Resource).filter(Resource.id == rid).first()`. -/
def findResource (resources : List Resource) (rid : String) : Option Resource :=
  resources.find? (fun r => r.id == rid)

/-- Embeds `db.query(Complaint).filter(Complaint.id == cid).first()`. -/
def findComplaint (db : DB) (cid : String) : Option Complaint :=
  db.complaints.find? (fun c => c.id == cid)

/-- The active-assignment filter for one (complaint, resource) pair, as in
both the duplicate check of the assign handler and the lookup of the
unassign handler. -/
def isActivePair (cid rid : String) (a : ResourceAssignment) : Bool :=
  a.complaint_id == cid && a.resource_id == rid && isActiveStatus a.status

/-- ORM attribute mutation on the single row returned by `.first()`: replace
the first list element satisfying `p` by its image under `f`. -/
def updateFirst (p : α → Bool) (f : α → α) : List α → List α
  | [] => []
  | x :: xs => if p x then f x :: xs else x :: updateFirst p f xs

/-- Number of active assignments a database holds for one
(complaint, resource) pair. -/
def countActivePair (db : DB) (cid rid : String) : Nat :=
  (db.assignments.filter (isActivePair cid rid)).length

/-- Whether some active assignment (any complaint) exists for a resource. -/
def hasActiveForResource (db : DB) (rid : String) : Bool :=
  db.assignments.any (fun a => a.resource_id == rid && isActiveStatus a.status)

/-- One element of the `assignedResources` list returned by the assign
handler (`{"id": ..., "name": ..., "type": ...}`). -/
structure AssignedInfo where
  id : String
  name : String
  type : String
  deriving Repr, DecidableEq

/-- State threaded through the `for resource_id in resource_ids` loop of
`assign_resources_to_complaint`: the in-session view of the resources table,
the pending (not yet committed) new assignment rows, the response list, and
the fresh-id counter. -/
structure AssignLoopState where
  resources : List Resource
  newAssignments : List ResourceAssignment
  assignedResources : List AssignedInfo
  next_id : Nat
  deriving Repr, DecidableEq

/-- One iteration of the assign loop (`admin_routes.py`, lines 693 to 728).
Because the session has `autoflush=False`, the duplicate check queries only
the committed assignment rows (`committed`): assignments added earlier in the
same call are invisible to it. -/
def assignStep (cid : String) (notes : Option String) (est : Option Nat)
    (committed : List ResourceAssignment) (now : Nat)
    (st : AssignLoopState) (rid : String) : AssignLoopState :=
  match findResource st.resources rid with
  | none => st
  | some resource =>
    if (committed.find? (isActivePair cid rid)).isSome then
      st
    else
      let assignment : ResourceAssignment :=
        { id := st.next_id, complaint_id := cid, resource_id := rid,
          assigned_by := "Admin API", assigned_at := now,
          start_time := none, end_time := none, status := "Assigned",
          notes := notes, estimated_hours := est }
      { resources := updateFirst (fun r => r.id == rid)
          (fun r => { r with availability_status := "Busy" }) st.resources,
        newAssignments := st.newAssignments ++ [assignment],
        assignedResources := st.assignedResources ++
          [{ id := resource.id, name := resource.name, type := resource.type }],
        next_id := st.next_id + 1 }

/-- Handler POST on /api/admin/complaints/:complaint_id/resources
(`admin_routes.py`, `assign_resources_to_complaint`): batch assignment of
resources to a complaint, with one summarizing history row appended when at
least one resource was assigned, then a single commit. -/
def assign_resources_to_complaint (db : DB) (cid : String)
    (resource_ids : List String) (notes : Option String) (est : Option Nat)
    (now : Nat) : Except ApiError (DB × List AssignedInfo) :=
  match findComplaint db cid with
  | none => .error .notFound
  | some complaint =>
    let final := resource_ids.foldl
      (assignStep cid notes est db.assignments now)
      { resources := db.resources, newAssignments := [],
        assignedResources := [], next_id := db.next_id }
    let newHistory : List ComplaintStatusHistory :=
      if final.assignedResources.isEmpty then []
      else
        [{ complaint_id := cid, status := complaint.status,
           note := "Resources assigned: " ++
             String.intercalate ", " (final.assignedResources.map (·.name)),
           updated_by := "Admin API", created_at := now }]
    .ok ({ complaints := db.complaints,
           resources := final.resources,
           assignments := db.assignments ++ final.newAssignments,
           history := db.history ++ newHistory,
           next_id := final.next_id }, final.assignedResources)

/-- Handler DELETE on /api/admin/complaints/:complaint_id/resources/:resource_id
(`admin_routes.py`, `remove_resource_assignment_from_complaint`): cancel the
first active assignment for the pair, stamp its end time, set the resource
availability to Available unconditionally, append one history row.  The
handler reads `.first().status` of the complaint without a None check, so a
missing complaint raises (modelled as `internalError`, nothing committed). -/
def remove_resource_assignment_from_complaint (db : DB) (cid rid : String)
    (now : Nat) : Except ApiError DB :=
  match db.assignments.find? (isActivePair cid rid) with
  | none => .error .notFound
  | some _ =>
    let resource? := findResource db.resources rid
    match findComplaint db cid with
    | none => .error .internalError
    | some complaint =>
      let note := "Resource removed: " ++
        (match resource? with
         | some r => r.name
         | none => rid)
      .ok { db with
        assignments := updateFirst (isActivePair cid rid)
          (fun a => { a with status := "Cancelled", end_time := some now })
          db.assignments,
        resources :=
          match resource? with
          | some _ => updateFirst (fun r => r.id == rid)
              (fun r => { r with availability_status := "Available" })
              db.resources
          | none => db.resources,
        history := db.history ++
          [{ complaint_id := cid, status := complaint.status, note := note,
             updated_by := "Admin API", created_at := now }] }

/-- Handler DELETE on /api/admin/resources/:resource_id (`admin_routes.py`,
`deactivate_system_resource`): soft delete, setting only `is_active` and
`updated_at` on the targeted resource row. -/
def deactivate_system_resource (db : DB) (rid : String) (now : Nat) :
    Except ApiError DB :=
  match findResource db.resources rid with
  | none => .error .notFound
  | some _ =>
    .ok { db with
      resources := updateFirst (fun r => r.id == rid)
        (fun r => { r with is_active := false, updated_at := now })
        db.resources }

/-- One element of the response of the list-assignments handler: the
assignment row joined with its resource row. -/
structure AssignmentView where
  assignment : ResourceAssignment
  resource : Resource
  deriving Repr, DecidableEq

/-- Handler GET on /api/admin/complaints/:complaint_id/resources
(`admin_routes.py`, `get_complaint_assigned_resources`): all assignment rows
of the complaint, any status, inner-joined with the resources table.  The
query carries no `order_by`, so rows come back in table (insertion) order. -/
def get_complaint_assigned_resources (db : DB) (cid : String) :
    Except ApiError (List AssignmentView) :=
  match findComplaint db cid with
  | none => .error .notFound
  | some _ =>
    .ok ((db.assignments.filter (fun a => a.complaint_id == cid)).filterMap
      (fun a => (findResource db.resources a.resource_id).map
        (fun r => { assignment := a, resource := r })))

/-- Python `str.strip` (no argument): leading and trailing whitespace
removed, modelled structurally on the character list. -/
def pyStrip (s : String) : String :=
  String.mk (((s.data.dropWhile (fun c => c.isWhitespace)).reverse.dropWhile
    (fun c => c.isWhitespace)).reverse)

/-- Python `str.lower`: every character lower-cased, modelled structurally
on the character list. -/
def pyLower (s : String) : String :=
  String.mk (s.data.map Char.toLower)

/-- Python `str.capitalize`: first character upper-cased, all following
characters lower-cased. -/
def pyCapitalize (s : String) : String :=
  match s.data with
  | [] => ""
  | c :: cs => String.mk (c.toUpper :: cs.map Char.toLower)

/-- Function `fallback_priority` of `backend/utils.py`: guard that maps any response
outside {low, medium, high} (case-insensitive) to "Medium".  No route of the
repository ever calls it. -/
def fallback_priority (response : String) : String :=
  if !(["low", "medium", "high"].contains (pyLower response)) then "Medium"
  else pyCapitalize response

/-- Handler POST on /api/complaints (`user_routes.py`, `submit_new_complaint`).  The
external priority classifier (`WatsonXService.analyze_priority`) is passed in
as `classifier`: `Except.ok s` when the model call returns generated text
`s`, `Except.error ()` when the call raises.  The handler stores the stripped
classifier output verbatim as the priority of the new complaint; a raised
classifier exception escapes the handler uncaught, creating nothing. -/
def submit_new_complaint (db : DB) (title description serviceType : String)
    (reporter : String) (actor : String) (classifier : Except Unit String)
    (now : Nat) : Except ApiError (DB × Complaint) :=
  match classifier with
  | .error _ => .error .internalError
  | .ok generated =>
    let complaint : Complaint :=
      { id := "CC-" ++ toString db.next_id, title := title,
        description := description, service_type := serviceType,
        status := "Open", priority := pyStrip generated,
        reporter_id := reporter }
    .ok ({ db with
      complaints := db.complaints ++ [complaint],
      history := db.history ++
        [{ complaint_id := complaint.id, status := "Open",
           note := "Complaint submitted by citizen", updated_by := actor,
           created_at := now }],
      next_id := db.next_id + 1 }, complaint)

/-- Modelled from the spec: the repository has no status-transition endpoint
(no route under `backend/routes/` or `backend/main.py` ever writes
`Complaint.status`), so the reachability table of section 4.2 of the spec is
taken at its word: Open to In Progress, In Progress to Resolved, Resolved to
Open (re-open), Open to Resolved, and any non-terminal state to Cancelled. -/
def allowedTransition (current target : String) : Bool :=
  (current == "Open" && target == "In Progress") ||
  (current == "In Progress" && target == "Resolved") ||
  (current == "Resolved" && target == "Open") ||
  (current == "Open" && target == "Resolved") ||
  ((current == "Open" || current == "In Progress") && target == "Cancelled")

/-- Modelled from the spec: the section 4.2 transition operation of the
missing Complaint Lifecycle Controller — takes (complaint id, new status,
note, actor), and as one unit updates the status and appends exactly one
history row; a target unreachable from the current status fails with
`invalidTransition`, committing nothing. -/
def transition_complaint_status (db : DB) (cid target note actor : String)
    (now : Nat) : Except ApiError DB :=
  match findComplaint db cid with
  | none => .error .notFound
  | some complaint =>
    if allowedTransition complaint.status target then
      .ok { db with
        complaints := updateFirst (fun c => c.id == cid)
          (fun c => { c with status := target }) db.complaints,
        history := db.history ++
          [{ complaint_id := cid, status := target, note := note,
             updated_by := actor, created_at := now }] }
    else .error .invalidTransition

/-- The loop state in which the assign loop starts. -/
def assignInit (db : DB) : AssignLoopState :=
  { resources := db.resources, newAssignments := [],
    assignedResources := [], next_id := db.next_id }

/-- The loop state after the whole assign loop. -/
def assignFinal (db : DB) (cid : String) (rids : List String)
    (notes : Option String) (est : Option Nat) (now : Nat) : AssignLoopState :=
  rids.foldl (assignStep cid notes est db.assignments now) (assignInit db)

/-- The summarizing history row the assign handler appends when at least one
resource was newly assigned. -/
def assignHistoryRow (cid : String) (complaint : Complaint)
    (assigned : List AssignedInfo) (now : Nat) : ComplaintStatusHistory :=
  { complaint_id := cid, status := complaint.status,
    note := "Resources assigned: " ++
      String.intercalate ", " (assigned.map AssignedInfo.name),
    updated_by := "Admin API", created_at := now }

/-- The history row the unassign handler appends. -/
def removeHistoryRow (db : DB) (cid rid : String) (complaint : Complaint)
    (now : Nat) : ComplaintStatusHistory :=
  { complaint_id := cid, status := complaint.status,
    note := "Resource removed: " ++
      (match findResource db.resources rid with
       | some r => r.name
       | none => rid),
    updated_by := "Admin API", created_at := now }

/-- An open complaint C1. -/
def complaintC1 : Complaint :=
  { id := "C1", title := "Pothole on Main St", description := "large pothole",
    service_type := "roads", status := "Open", priority := "Medium",
    reporter_id := "U1" }

/-- A second open complaint C2. -/
def complaintC2 : Complaint :=
  { id := "C2", title := "Broken pipe", description := "leak",
    service_type := "water", status := "Open", priority := "Medium",
    reporter_id := "U2" }

/-- An available, active resource R1. -/
def resourceR1 : Resource :=
  { id := "R1", name := "Crew A", type := "Personnel",
    service_category := "roads", availability_status := "Available",
    contact_person := none, contact_phone := none, is_active := true,
    created_at := 0, updated_at := 0 }

/-- A deactivated (soft-deleted) resource R2. -/
def resourceR2 : Resource :=
  { id := "R2", name := "Digger", type := "Equipment",
    service_category := "roads", availability_status := "Available",
    contact_person := none, contact_phone := none, is_active := false,
    created_at := 0, updated_at := 0 }

/-- An assignment row in the active state Assigned. -/
def activeAssignment (aid : Nat) (cid rid : String) (t : Nat) :
    ResourceAssignment :=
  { id := aid, complaint_id := cid, resource_id := rid,
    assigned_by := "Admin API", assigned_at := t, start_time := none,
    end_time := none, status := "Assigned", notes := none,
    estimated_hours := none }

/-- Database for the C1 failing input: one open complaint, one available
active resource, no assignments, no history — the pair-uniqueness invariant
holds trivially here. -/
def dbDupBatch : DB :=
  { complaints := [complaintC1], resources := [resourceR1], assignments := [],
    history := [], next_id := 0 }

/-- Database for the C2 counterexample: resource R1 is actively assigned to
both complaints C1 and C2 and is marked Busy. -/
def dbShared : DB :=
  { complaints := [complaintC1, complaintC2],
    resources := [{ resourceR1 with availability_status := "Busy" }],
    assignments := [activeAssignment 0 "C1" "R1" 1,
      activeAssignment 1 "C2" "R1" 2],
    history := [], next_id := 2 }

/-- The database state after the witness unassign, computed from the handler
itself. -/
def dbSharedAfter : DB :=
  (remove_resource_assignment_from_complaint dbShared "C1" "R1" 9).toOption.getD
    dbShared

/-- The resource row R1 after the witness unassign. -/
def resourceR1After : Resource :=
  (findResource dbSharedAfter.resources "R1").getD resourceR1

/-- A database whose only complaint is resolved. -/
def dbResolved : DB :=
  { complaints := [{ complaintC1 with status := "Resolved" }],
    resources := [], assignments := [], history := [], next_id := 0 }

/-- Database for the C4 counterexample: the only resource is deactivated
(`is_active = false`). -/
def dbInactive : DB :=
  { complaints := [complaintC1], resources := [resourceR2], assignments := [],
    history := [], next_id := 0 }

/-- Database and result fixtures for the C4 amended witness: a batch naming
one resolvable resource and one unknown id. -/
def dbC4After : DB :=
  ((assign_resources_to_complaint dbDupBatch "C1" ["R1", "RX"] none none
    4).toOption.getD (dbDupBatch, [])).1

/-- The assigned-resources list of the C4 witness call. -/
def c4Assigned : List AssignedInfo :=
  ((assign_resources_to_complaint dbDupBatch "C1" ["R1", "RX"] none none
    4).toOption.getD (dbDupBatch, [])).2

/-- Witness for C5 at a concrete one-id batch. -/
def dbC5After : DB :=
  ((assign_resources_to_complaint dbDupBatch "C1" ["R1"] none none
    6).toOption.getD (dbDupBatch, [])).1

/-- The assigned-resources list of the C5 witness call. -/
def c5Assigned : List AssignedInfo :=
  ((assign_resources_to_complaint dbDupBatch "C1" ["R1"] none none
    6).toOption.getD (dbDupBatch, [])).2

/-- A database with exactly one active assignment, binding R1 to C1. -/
def dbOneActive : DB :=
  { complaints := [complaintC1],
    resources := [{ resourceR1 with availability_status := "Busy" }],
    assignments := [activeAssignment 0 "C1" "R1" 1], history := [],
    next_id := 1 }

/-- The empty database. -/
def dbEmpty : DB :=
  { complaints := [], resources := [], assignments := [], history := [],
    next_id := 0 }

/-- A second available active resource R3. -/
def resourceR3 : Resource :=
  { resourceR1 with id := "R3", name := "Truck", type := "Vehicle" }

/-- Database for the C8 counterexample: the assignment table holds the row
with the later assigned_at timestamp first. -/
def dbOutOfOrder : DB :=
  { complaints := [complaintC1],
    resources := [resourceR1, resourceR3],
    assignments := [activeAssignment 0 "C1" "R3" 5,
      activeAssignment 1 "C1" "R1" 3],
    history := [], next_id := 2 }

/-! Properties: general lemmas about the embedded operations, followed by
one theorem (with witness or counterexample where applicable) per claim. -/

/-- If no element satisfies `p`, `updateFirst` changes nothing. -/
theorem updateFirst_of_find?_eq_none {α : Type} {p : α → Bool} {l : List α}
    (h : l.find? p = none) (f : α → α) : updateFirst p f l = l := by
  induction l with
  | nil => rfl
  | cons x xs ih =>
    cases hpx : p x with
    | true => rw [List.find?_cons_of_pos _ hpx] at h; exact absurd h (by simp)
    | false =>
      rw [List.find?_cons_of_neg _ (by simp [hpx])] at h
      simp [updateFirst, hpx, ih h]

/-- The element returned by `.first()` splits the list, every element before
it fails the filter, and the ORM mutation rewrites exactly that element. -/
theorem updateFirst_decomp {α : Type} {p : α → Bool} {l : List α} {a : α}
    (h : l.find? p = some a) (f : α → α) :
    ∃ s t, l = s ++ a :: t ∧ (∀ x ∈ s, p x = false) ∧ p a = true ∧
      updateFirst p f l = s ++ f a :: t := by
  induction l with
  | nil => exact absurd h (by simp)
  | cons x xs ih =>
    cases hpx : p x with
    | true =>
      rw [List.find?_cons_of_pos _ hpx] at h
      obtain rfl : x = a := by simpa using h
      exact ⟨[], xs, by simp, by simp, hpx, by simp [updateFirst, hpx]⟩
    | false =>
      rw [List.find?_cons_of_neg _ (by simp [hpx])] at h
      obtain ⟨s, t, hl, hs, hpa, hu⟩ := ih h
      refine ⟨x :: s, t, by simp [hl], ?_, hpa, by simp [updateFirst, hpx, hu]⟩
      intro y hy
      rcases List.mem_cons.mp hy with rfl | hy
      · exact hpx
      · exact hs y hy

/-- Unfolding `findResource` over a cons cell. -/
theorem findResource_cons (r : Resource) (rs : List Resource) (id : String) :
    findResource (r :: rs) id = if r.id == id then some r else findResource rs id := by
  cases h : (r.id == id) with
  | true => simp [findResource, List.find?, h]
  | false => simp [findResource, List.find?, h]

/-- Looking a resource up after an id-preserving mutation of the row with id
`rid`: the lookup of `rid` sees the mutation, every other lookup is
unchanged. -/
theorem findResource_updateFirst (l : List Resource) (rid id : String)
    (f : Resource → Resource) (hf : ∀ r, (f r).id = r.id) :
    findResource (updateFirst (fun r => r.id == rid) f l) id =
      if id = rid then (findResource l rid).map f else findResource l id := by
  induction l with
  | nil => by_cases hid : id = rid <;> simp [findResource, updateFirst, hid]
  | cons r rs ih =>
    cases hb : (r.id == rid) with
    | true =>
      have hrid : r.id = rid := beq_iff_eq.mp hb
      by_cases hid : id = rid
      · simp [updateFirst, hb, findResource_cons, hf r, hrid, hid]
      · have hne : (r.id == id) = false := by
          simp only [beq_eq_false_iff_ne, ne_eq, hrid]
          exact fun h => hid h.symm
        simp [updateFirst, hb, findResource_cons, hf r, hne, hid]
    | false =>
      by_cases hid : id = rid
      · have hne : (r.id == id) = false := by rw [hid]; exact hb
        have ih2 := ih
        rw [if_pos hid] at ih2
        rw [if_pos hid]
        simp [updateFirst, hb, findResource_cons, hne, ih2]
      · cases hm : (r.id == id) with
        | true => simp [updateFirst, hb, findResource_cons, hm, hid]
        | false => simp [updateFirst, hb, findResource_cons, hm, hid, ih]

/-- Id-preserving row mutations do not change which resource ids resolve. -/
theorem findResource_updateFirst_isSome (l : List Resource) (rid id : String)
    (f : Resource → Resource) (hf : ∀ r, (f r).id = r.id) :
    (findResource (updateFirst (fun r => r.id == rid) f l) id).isSome =
      (findResource l id).isSome := by
  rw [findResource_updateFirst l rid id f hf]
  by_cases hid : id = rid
  · subst hid; simp
  · simp [hid]

/-- The row handed back by `.first()` satisfies the id filter. -/
theorem findResource_id (l : List Resource) (rid : String) (r : Resource)
    (h : findResource l rid = some r) : r.id = rid := by
  unfold findResource at h
  have hp := @List.find?_some Resource (fun x => x.id == rid) r l h
  exact beq_iff_eq.mp hp

/-- The availability update of an assign-loop iteration never changes a
resource id, so the same resource ids resolve before and after it. -/
theorem assignStep_resources_isSome (cid : String) (notes : Option String)
    (est : Option Nat) (committed : List ResourceAssignment) (now : Nat)
    (st : AssignLoopState) (rid id : String) :
    (findResource (assignStep cid notes est committed now st rid).resources id).isSome
      = (findResource st.resources id).isSome := by
  cases h : findResource st.resources rid with
  | none => simp [assignStep, h]
  | some r =>
    cases hex : (committed.find? (isActivePair cid rid)).isSome with
    | true => simp [assignStep, h, hex]
    | false =>
      simp only [assignStep, h, hex, Bool.false_eq_true, if_false]
      exact findResource_updateFirst_isSome st.resources rid id _ (fun r => rfl)

/-- Effect of one assign-loop iteration on the created rows: a row for the
pair (cid, rid) is newly present iff this iteration targets rid, the
resource id resolves, and no committed active assignment for the pair
exists — the duplicate check consults only committed rows. -/
theorem assignStep_new_iff (cid : String) (notes : Option String)
    (est : Option Nat) (committed : List ResourceAssignment) (now : Nat)
    (st : AssignLoopState) (r0 rid : String) :
    (∃ a ∈ (assignStep cid notes est committed now st r0).newAssignments,
        a.complaint_id = cid ∧ a.resource_id = rid ∧ a.status = "Assigned")
    ↔ ((∃ a ∈ st.newAssignments,
          a.complaint_id = cid ∧ a.resource_id = rid ∧ a.status = "Assigned")
       ∨ (rid = r0 ∧ (findResource st.resources r0).isSome = true ∧
          (committed.find? (isActivePair cid r0)).isSome = false)) := by
  cases h : findResource st.resources r0 with
  | none => simp [assignStep, h]
  | some r =>
    cases hex : (committed.find? (isActivePair cid r0)).isSome with
    | true => simp [assignStep, h, hex]
    | false =>
      simp only [assignStep, h, hex, Bool.false_eq_true, if_false]
      constructor
      · rintro ⟨a, ha, hP⟩
        rcases List.mem_append.mp ha with hold | hnew
        · exact Or.inl ⟨a, hold, hP⟩
        · rw [List.mem_singleton] at hnew
          subst hnew
          exact Or.inr ⟨hP.2.1.symm, by simp [h], by simp [hex]⟩
      · rintro (⟨a, hold, hP⟩ | ⟨rfl, _, _⟩)
        · exact ⟨a, List.mem_append.mpr (Or.inl hold), hP⟩
        · exact ⟨_, List.mem_append.mpr (Or.inr (List.mem_singleton.mpr rfl)),
            rfl, rfl, rfl⟩

/-- Per-resource characterization of the whole assign loop: a new row in
state Assigned for the pair (cid, rid) exists after the loop iff one existed
in the starting loop state, or rid occurs in the batch, resolves to a
resource row, and no committed active assignment for the pair exists. -/
theorem assignLoop_new_iff (cid : String) (notes : Option String)
    (est : Option Nat) (committed : List ResourceAssignment) (now : Nat) :
    ∀ (rids : List String) (st : AssignLoopState) (rid : String),
    (∃ a ∈ (rids.foldl (assignStep cid notes est committed now) st).newAssignments,
        a.complaint_id = cid ∧ a.resource_id = rid ∧ a.status = "Assigned")
    ↔ ((∃ a ∈ st.newAssignments,
          a.complaint_id = cid ∧ a.resource_id = rid ∧ a.status = "Assigned")
       ∨ (rid ∈ rids ∧ (findResource st.resources rid).isSome = true ∧
          (committed.find? (isActivePair cid rid)).isSome = false))
  | [], st, rid => by simp
  | r0 :: rest, st, rid => by
    rw [List.foldl_cons,
      assignLoop_new_iff cid notes est committed now rest _ rid,
      assignStep_new_iff, assignStep_resources_isSome]
    constructor
    · rintro ((hst | ⟨rfl, hsome, hnone⟩) | ⟨hmem, hsome, hnone⟩)
      · exact Or.inl hst
      · exact Or.inr ⟨List.mem_cons_self _ _, hsome, hnone⟩
      · exact Or.inr ⟨List.mem_cons_of_mem _ hmem, hsome, hnone⟩
    · rintro (hst | ⟨hmem, hsome, hnone⟩)
      · exact Or.inl (Or.inl hst)
      · rcases List.mem_cons.mp hmem with rfl | hmem2
        · exact Or.inl (Or.inr ⟨rfl, hsome, hnone⟩)
        · exact Or.inr ⟨hmem2, hsome, hnone⟩

/-- One assign-loop iteration preserves the invariant that every resource
already reported as newly assigned is Busy in the loop view of the
resources table. -/
theorem assignStep_busy (cid : String) (notes : Option String)
    (est : Option Nat) (committed : List ResourceAssignment) (now : Nat)
    (st : AssignLoopState) (r0 : String)
    (h : ∀ info ∈ st.assignedResources, ∃ r,
      findResource st.resources info.id = some r ∧
        r.availability_status = "Busy") :
    ∀ info ∈ (assignStep cid notes est committed now st r0).assignedResources,
      ∃ r, findResource (assignStep cid notes est committed now st r0).resources
          info.id = some r ∧ r.availability_status = "Busy" := by
  cases hres : findResource st.resources r0 with
  | none => simpa [assignStep, hres] using h
  | some r =>
    cases hex : (committed.find? (isActivePair cid r0)).isSome with
    | true => simpa [assignStep, hres, hex] using h
    | false =>
      simp only [assignStep, hres, hex, Bool.false_eq_true, if_false]
      intro info hinfo
      rw [findResource_updateFirst st.resources r0 info.id
        (fun x => { x with availability_status := "Busy" }) (fun x => rfl)]
      rcases List.mem_append.mp hinfo with hold | hnew
      · obtain ⟨rf, hfound, hbusy⟩ := h info hold
        by_cases hideq : info.id = r0
        · rw [if_pos hideq, hres]
          exact ⟨_, rfl, rfl⟩
        · rw [if_neg hideq]
          exact ⟨rf, hfound, hbusy⟩
      · rw [List.mem_singleton] at hnew
        have hid : info.id = r0 := by rw [hnew]; exact findResource_id _ _ _ hres
        rw [if_pos hid, hres]
        exact ⟨_, rfl, rfl⟩

/-- After the whole assign loop, every resource reported as newly assigned
is Busy in the final resources view. -/
theorem assignLoop_busy (cid : String) (notes : Option String)
    (est : Option Nat) (committed : List ResourceAssignment) (now : Nat) :
    ∀ (rids : List String) (st : AssignLoopState),
    (∀ info ∈ st.assignedResources, ∃ r,
        findResource st.resources info.id = some r ∧
          r.availability_status = "Busy") →
    ∀ info ∈ (rids.foldl (assignStep cid notes est committed now) st).assignedResources,
      ∃ r, findResource
          (rids.foldl (assignStep cid notes est committed now) st).resources
          info.id = some r ∧ r.availability_status = "Busy"
  | [], st => by intro h; simpa using h
  | r0 :: rest, st => by
    intro h
    rw [List.foldl_cons]
    exact assignLoop_busy cid notes est committed now rest _
      (assignStep_busy cid notes est committed now st r0 h)

/-- Unfolded form of the assign handler when the complaint resolves. -/
theorem assign_resources_eq (db : DB) (cid : String) (rids : List String)
    (notes : Option String) (est : Option Nat) (now : Nat)
    (complaint : Complaint) (hc : findComplaint db cid = some complaint) :
    assign_resources_to_complaint db cid rids notes est now =
      .ok ({ complaints := db.complaints,
             resources := (assignFinal db cid rids notes est now).resources,
             assignments := db.assignments ++
               (assignFinal db cid rids notes est now).newAssignments,
             history := db.history ++
               (if (assignFinal db cid rids notes est now).assignedResources.isEmpty
                then []
                else [assignHistoryRow cid complaint
                  (assignFinal db cid rids notes est now).assignedResources now]),
             next_id := (assignFinal db cid rids notes est now).next_id },
           (assignFinal db cid rids notes est now).assignedResources) := by
  unfold assign_resources_to_complaint assignFinal assignInit assignHistoryRow
  rw [hc]

/-- The assign handler 404s when the complaint does not resolve. -/
theorem assign_resources_eq_none (db : DB) (cid : String) (rids : List String)
    (notes : Option String) (est : Option Nat) (now : Nat)
    (hc : findComplaint db cid = none) :
    assign_resources_to_complaint db cid rids notes est now
      = .error .notFound := by
  unfold assign_resources_to_complaint
  rw [hc]

/-- Unfolded form of the unassign handler when an active assignment and the
complaint both resolve. -/
theorem remove_resource_eq (db : DB) (cid rid : String) (now : Nat)
    (a : ResourceAssignment) (complaint : Complaint)
    (ha : db.assignments.find? (isActivePair cid rid) = some a)
    (hc : findComplaint db cid = some complaint) :
    remove_resource_assignment_from_complaint db cid rid now = .ok { db with
      assignments := updateFirst (isActivePair cid rid)
        (fun x => { x with status := "Cancelled", end_time := some now })
        db.assignments,
      resources :=
        match findResource db.resources rid with
        | some _ => updateFirst (fun r => r.id == rid)
            (fun r => { r with availability_status := "Available" })
            db.resources
        | none => db.resources,
      history := db.history ++ [removeHistoryRow db cid rid complaint now] } := by
  unfold remove_resource_assignment_from_complaint removeHistoryRow
  rw [ha, hc]

/-- The unassign handler 404s when no active assignment exists for the
pair. -/
theorem remove_eq_error_of_none (db : DB) (cid rid : String) (now : Nat)
    (h : db.assignments.find? (isActivePair cid rid) = none) :
    remove_resource_assignment_from_complaint db cid rid now
      = .error .notFound := by
  unfold remove_resource_assignment_from_complaint
  rw [h]

/-- Unfolded form of the soft delete when the resource resolves. -/
theorem deactivate_eq (db : DB) (rid : String) (now : Nat) (r : Resource)
    (h : findResource db.resources rid = some r) :
    deactivate_system_resource db rid now = .ok { db with
      resources := updateFirst (fun x => x.id == rid)
        (fun x => { x with is_active := false, updated_at := now })
        db.resources } := by
  unfold deactivate_system_resource
  rw [h]

/-- The cancelled status is not an active status. -/
theorem isActiveStatus_cancelled : isActiveStatus "Cancelled" = false := by
  decide

/-- A cancelled row is not an active row for any pair. -/
theorem isActivePair_cancel (cid rid : String) (now : Nat)
    (a : ResourceAssignment) :
    isActivePair cid rid { a with status := "Cancelled", end_time := some now }
      = false := by
  simp [isActivePair, isActiveStatus_cancelled]

/-- When the pair had at most one active row, cancelling the row returned by
`.first()` leaves no active row for the pair. -/
theorem no_active_after_cancel (db : DB) (cid rid : String) (now : Nat)
    (a : ResourceAssignment)
    (ha : db.assignments.find? (isActivePair cid rid) = some a)
    (hcount : countActivePair db cid rid ≤ 1) :
    (updateFirst (isActivePair cid rid)
      (fun x => { x with status := "Cancelled", end_time := some now })
      db.assignments).find? (isActivePair cid rid) = none := by
  obtain ⟨s, t, hsplit, hs, hpa, hupd⟩ :=
    updateFirst_decomp ha
      (fun x => { x with status := "Cancelled", end_time := some now })
  rw [hupd, List.find?_eq_none]
  unfold countActivePair at hcount
  rw [hsplit, List.filter_append] at hcount
  have hfs : s.filter (isActivePair cid rid) = [] := by
    rw [List.filter_eq_nil_iff]
    intro y hy
    simp [hs y hy]
  rw [hfs, List.nil_append, List.filter_cons_of_pos hpa,
    List.length_cons] at hcount
  have htnil : t.filter (isActivePair cid rid) = [] :=
    List.length_eq_zero.mp (by omega)
  have hft : ∀ y ∈ t, ¬ isActivePair cid rid y = true := by
    intro y hy hcon
    have hmem : y ∈ t.filter (isActivePair cid rid) :=
      List.mem_filter.mpr ⟨hy, hcon⟩
    rw [htnil] at hmem
    simp at hmem
  intro x hx
  rcases List.mem_append.mp hx with hxs | hxc
  · simp [hs x hxs]
  · rcases List.mem_cons.mp hxc with rfl | hxt
    · simp [isActivePair_cancel]
    · exact hft x hxt

/-- Unfolded form of the unassign handler when the active assignment, the
resource, and the complaint all resolve. -/
theorem remove_resource_eq_res_some (db : DB) (cid rid : String) (now : Nat)
    (a : ResourceAssignment) (r0 : Resource) (complaint : Complaint)
    (ha : db.assignments.find? (isActivePair cid rid) = some a)
    (hres : findResource db.resources rid = some r0)
    (hc : findComplaint db cid = some complaint) :
    remove_resource_assignment_from_complaint db cid rid now = .ok { db with
      assignments := updateFirst (isActivePair cid rid)
        (fun x => { x with status := "Cancelled", end_time := some now })
        db.assignments,
      resources := updateFirst (fun r => r.id == rid)
        (fun r => { r with availability_status := "Available" })
        db.resources,
      history := db.history ++
        [{ complaint_id := cid, status := complaint.status,
           note := "Resource removed: " ++ r0.name,
           updated_by := "Admin API", created_at := now }] } := by
  unfold remove_resource_assignment_from_complaint
  rw [ha, hres, hc]

/-- Unfolded form of the unassign handler when the active assignment and the
complaint resolve but the resource row does not. -/
theorem remove_resource_eq_res_none (db : DB) (cid rid : String) (now : Nat)
    (a : ResourceAssignment) (complaint : Complaint)
    (ha : db.assignments.find? (isActivePair cid rid) = some a)
    (hres : findResource db.resources rid = none)
    (hc : findComplaint db cid = some complaint) :
    remove_resource_assignment_from_complaint db cid rid now = .ok { db with
      assignments := updateFirst (isActivePair cid rid)
        (fun x => { x with status := "Cancelled", end_time := some now })
        db.assignments,
      history := db.history ++
        [{ complaint_id := cid, status := complaint.status,
           note := "Resource removed: " ++ rid,
           updated_by := "Admin API", created_at := now }] } := by
  unfold remove_resource_assignment_from_complaint
  rw [ha, hres, hc]

/-- C1: the claimed at-most-one-active-assignment invariant fails on the
code.  The session is created with `autoflush=False`, so the duplicate check
of the assign handler sees only committed rows; a single Assign call whose
resource_ids list holds the same resource id twice therefore creates two
assignments in state Assigned for the same (complaint, resource) pair,
starting from a state satisfying the invariant. -/
theorem c1_duplicate_batch_creates_two_active_assignments :
    (assign_resources_to_complaint dbDupBatch "C1" ["R1", "R1"] none none 5).map
      (fun p => countActivePair p.1 "C1" "R1") = .ok 2 := by
  rfl

/-- C2 counterexample: unassigning R1 from C1 sets the availability of R1 to
Available even though the active assignment of R1 to C2 remains; after the
operation the resource is not Busy while an active assignment for it exists,
so the claimed biconditional — and the claimed recomputation from the full
active-assignment set — fails on the code. -/
theorem c2_counterexample_unassign_blindly_sets_available :
    (remove_resource_assignment_from_complaint dbShared "C1" "R1" 9).map
      (fun db2 => ((findResource db2.resources "R1").map
        (fun r => r.availability_status), hasActiveForResource db2 "R1"))
      = .ok (some "Available", true) := by
  rfl

/-- C2 amended: Assign leaves every newly assigned resource Busy, and a
successful Unassign leaves the targeted resource Available unconditionally —
availability is never recomputed from the remaining active assignments, so a
resource with active assignments on other complaints ends up Available. -/
theorem c2_amended_availability_set_not_recomputed :
    (∀ db cid rids notes est now db2 assigned,
       assign_resources_to_complaint db cid rids notes est now
         = .ok (db2, assigned) →
       ∀ info ∈ assigned, ∃ r, findResource db2.resources info.id = some r ∧
         r.availability_status = "Busy")
    ∧ (∀ db cid rid now db2,
       remove_resource_assignment_from_complaint db cid rid now = .ok db2 →
       ∀ r, findResource db2.resources rid = some r →
         r.availability_status = "Available") := by
  constructor
  · intro db cid rids notes est now db2 assigned h info hinfo
    cases hc : findComplaint db cid with
    | none =>
      rw [assign_resources_eq_none db cid rids notes est now hc] at h
      simp at h
    | some complaint =>
      rw [assign_resources_eq db cid rids notes est now complaint hc] at h
      simp only [Except.ok.injEq, Prod.mk.injEq] at h
      obtain ⟨hdb, hassigned⟩ := h
      subst hdb
      subst hassigned
      exact assignLoop_busy cid notes est db.assignments now rids
        (assignInit db) (by intro i hi; simp [assignInit] at hi) info hinfo
  · intro db cid rid now db2 h r hr
    cases ha : db.assignments.find? (isActivePair cid rid) with
    | none =>
      rw [remove_eq_error_of_none db cid rid now ha] at h
      simp at h
    | some a =>
      cases hc : findComplaint db cid with
      | none =>
        unfold remove_resource_assignment_from_complaint at h
        rw [ha, hc] at h
        simp at h
      | some complaint =>
        cases hres : findResource db.resources rid with
        | none =>
          rw [remove_resource_eq_res_none db cid rid now a complaint ha hres hc]
            at h
          simp only [Except.ok.injEq] at h
          subst h
          rw [hres] at hr
          simp at hr
        | some r0 =>
          rw [remove_resource_eq_res_some db cid rid now a r0 complaint ha hres
            hc] at h
          simp only [Except.ok.injEq] at h
          subst h
          rw [findResource_updateFirst db.resources rid rid
            (fun x => { x with availability_status := "Available" })
            (fun x => rfl), if_pos rfl, hres] at hr
          simp only [Option.map_some', Option.some.injEq] at hr
          rw [← hr]

/-- Witness for the amended C2 theorem: the hypotheses hold at the concrete
shared-resource state and the amended conclusion follows from the theorem. -/
theorem c2_amended_witness :
    remove_resource_assignment_from_complaint dbShared "C1" "R1" 9
        = .ok dbSharedAfter
      ∧ findResource dbSharedAfter.resources "R1" = some resourceR1After
      ∧ resourceR1After.availability_status = "Available" :=
  ⟨by rfl, by rfl,
    c2_amended_availability_set_not_recomputed.2 dbShared "C1" "R1" 9
      dbSharedAfter (by rfl) resourceR1After (by rfl)⟩

/-- C3: a transition request whose target is unreachable from the current
status under the section 4.2 state machine fails with `invalidTransition`;
since a failing handler commits nothing, the status of the complaint and its
history are unchanged. -/
theorem c3_unreachable_transition_rejected (db : DB)
    (cid target note actor : String) (now : Nat) (complaint : Complaint)
    (hc : findComplaint db cid = some complaint)
    (hbad : allowedTransition complaint.status target = false) :
    transition_complaint_status db cid target note actor now
      = .error .invalidTransition := by
  unfold transition_complaint_status
  rw [hc]
  simp [hbad]

/-- Witness for C3: the direct transition Resolved to In Progress (skipping
Open) is rejected, as the spec requires. -/
theorem c3_witness :
    allowedTransition "Resolved" "In Progress" = false
    ∧ transition_complaint_status dbResolved "C1" "In Progress" "note" "Admin" 7
        = .error .invalidTransition :=
  ⟨by rfl,
    c3_unreachable_transition_rejected dbResolved "C1" "In Progress" "note"
      "Admin" 7 { complaintC1 with status := "Resolved" } (by rfl) (by rfl)⟩

/-- C10: the soft delete changes only the targeted resource row, and on that
row only `is_active` and `updated_at` — availability is untouched, and the
complaints, assignments (so a Busy resource keeps its active assignments) and
history tables are unchanged, as is every other resource row. -/
theorem c10_deactivate_frame (db : DB) (rid : String) (now : Nat)
    (r : Resource) (h : findResource db.resources rid = some r) :
    ∃ db2 s t, deactivate_system_resource db rid now = .ok db2
      ∧ db.resources = s ++ r :: t
      ∧ db2.resources = s ++
          ({ r with is_active := false, updated_at := now }) :: t
      ∧ db2.complaints = db.complaints
      ∧ db2.assignments = db.assignments
      ∧ db2.history = db.history := by
  have heq := deactivate_eq db rid now r h
  unfold findResource at h
  obtain ⟨s, t, hsplit, hs, hpr, hupd⟩ :=
    updateFirst_decomp h (fun x => { x with is_active := false, updated_at := now })
  exact ⟨_, s, t, heq, hsplit, hupd, rfl, rfl, rfl⟩

/-- Witness for C10: deactivating the Busy resource R1 of the shared state
leaves both of its active assignments and all other tables unchanged. -/
theorem c10_witness :
    findResource dbShared.resources "R1"
        = some { resourceR1 with availability_status := "Busy" }
    ∧ ∃ db2 s t, deactivate_system_resource dbShared "R1" 9 = .ok db2
      ∧ dbShared.resources = s ++ { resourceR1 with availability_status := "Busy" } :: t
      ∧ db2.resources = s ++
          ({ { resourceR1 with availability_status := "Busy" } with
              is_active := false, updated_at := 9 }) :: t
      ∧ db2.complaints = dbShared.complaints
      ∧ db2.assignments = dbShared.assignments
      ∧ db2.history = dbShared.history :=
  ⟨by rfl, c10_deactivate_frame dbShared "R1" 9
    { resourceR1 with availability_status := "Busy" } (by rfl)⟩

/-- C4 counterexample: the assign handler never consults `is_active`; a
batch naming a deactivated resource still creates a new assignment in state
Assigned for it, where the claim requires that id to be skipped. -/
theorem c4_counterexample_inactive_resource_gets_assigned :
    resourceR2.is_active = false
    ∧ (assign_resources_to_complaint dbInactive "C1" ["R2"] none none 3).map
        (fun p => (countActivePair p.1 "C1" "R2", p.2.length)) = .ok (1, 1) :=
  ⟨rfl, by rfl⟩

/-- C4 amended: for each requested resource id, a new assignment in state
Assigned is created iff the resource id resolves and no active assignment
for the pair exists among the rows committed before the call; `is_active` is
never checked, and an id failing a check is skipped while the batch
continues (no exception aborts the batch). -/
theorem c4_amended_assign_checks_existence_and_duplicates_only
    (db : DB) (cid : String) (rids : List String) (notes : Option String)
    (est : Option Nat) (now : Nat) (db2 : DB) (assigned : List AssignedInfo)
    (h : assign_resources_to_complaint db cid rids notes est now
      = .ok (db2, assigned)) :
    ∃ newRows, db2.assignments = db.assignments ++ newRows ∧
      ∀ rid ∈ rids,
        ((∃ a ∈ newRows, a.complaint_id = cid ∧ a.resource_id = rid ∧
            a.status = "Assigned")
         ↔ ((findResource db.resources rid).isSome = true ∧
            (db.assignments.find? (isActivePair cid rid)).isSome = false)) := by
  cases hc : findComplaint db cid with
  | none =>
    rw [assign_resources_eq_none db cid rids notes est now hc] at h
    simp at h
  | some complaint =>
    rw [assign_resources_eq db cid rids notes est now complaint hc] at h
    simp only [Except.ok.injEq, Prod.mk.injEq] at h
    obtain ⟨hdb, hassigned⟩ := h
    subst hdb
    refine ⟨(assignFinal db cid rids notes est now).newAssignments, rfl, ?_⟩
    intro rid hrid
    have hiff := assignLoop_new_iff cid notes est db.assignments now rids
      (assignInit db) rid
    have hinit : (assignInit db).newAssignments = ([] : List ResourceAssignment) := rfl
    rw [hinit] at hiff
    constructor
    · intro hex
      rcases hiff.mp hex with ⟨x, hx, _⟩ | ⟨_, hsome, hnone⟩
      · exact absurd hx (List.not_mem_nil x)
      · exact ⟨hsome, hnone⟩
    · intro hcond
      exact hiff.mpr (Or.inr ⟨hrid, hcond.1, hcond.2⟩)

/-- Witness for the amended C4 theorem at a concrete two-id batch. -/
theorem c4_amended_witness :
    assign_resources_to_complaint dbDupBatch "C1" ["R1", "RX"] none none 4
        = .ok (dbC4After, c4Assigned)
    ∧ ∃ newRows, dbC4After.assignments = dbDupBatch.assignments ++ newRows ∧
      ∀ rid ∈ ["R1", "RX"],
        ((∃ a ∈ newRows, a.complaint_id = "C1" ∧ a.resource_id = rid ∧
            a.status = "Assigned")
         ↔ ((findResource dbDupBatch.resources rid).isSome = true ∧
            (dbDupBatch.assignments.find? (isActivePair "C1" rid)).isSome
              = false)) :=
  ⟨by rfl,
    c4_amended_assign_checks_existence_and_duplicates_only dbDupBatch "C1"
      ["R1", "RX"] none none 4 dbC4After c4Assigned (by rfl)⟩

/-- C5: when at least one resource was assigned, the assign handler appends
exactly one history row, whose note names exactly the newly assigned
resources; when the assigned set is empty, it appends nothing. -/
theorem c5_exactly_one_summary_history_row (db : DB) (cid : String)
    (rids : List String) (notes : Option String) (est : Option Nat)
    (now : Nat) (db2 : DB) (assigned : List AssignedInfo)
    (complaint : Complaint) (hc : findComplaint db cid = some complaint)
    (h : assign_resources_to_complaint db cid rids notes est now
      = .ok (db2, assigned)) :
    (assigned = [] → db2.history = db.history)
    ∧ (assigned ≠ [] → db2.history = db.history ++
        [{ complaint_id := cid, status := complaint.status,
           note := "Resources assigned: " ++
             String.intercalate ", " (assigned.map AssignedInfo.name),
           updated_by := "Admin API", created_at := now }]) := by
  rw [assign_resources_eq db cid rids notes est now complaint hc] at h
  simp only [Except.ok.injEq, Prod.mk.injEq] at h
  obtain ⟨hdb, hassigned⟩ := h
  subst hdb
  subst hassigned
  constructor
  · intro hnil
    simp [hnil]
  · intro hne
    have hfalse :
        (assignFinal db cid rids notes est now).assignedResources.isEmpty
          = false := by
      cases hk : (assignFinal db cid rids notes est now).assignedResources with
      | nil => exact absurd hk hne
      | cons x xs => rfl
    simp [hfalse, assignHistoryRow]

/-- Witness for C5: the hypotheses hold at a concrete call and the theorem
yields its history characterization there. -/
theorem c5_witness :
    findComplaint dbDupBatch "C1" = some complaintC1
    ∧ assign_resources_to_complaint dbDupBatch "C1" ["R1"] none none 6
        = .ok (dbC5After, c5Assigned)
    ∧ ((c5Assigned = [] → dbC5After.history = dbDupBatch.history)
       ∧ (c5Assigned ≠ [] → dbC5After.history = dbDupBatch.history ++
          [{ complaint_id := "C1", status := complaintC1.status,
             note := "Resources assigned: " ++
               String.intercalate ", " (c5Assigned.map AssignedInfo.name),
             updated_by := "Admin API", created_at := 6 }])) :=
  ⟨by rfl, by rfl,
    c5_exactly_one_summary_history_row dbDupBatch "C1" ["R1"] none none 6
      dbC5After c5Assigned complaintC1 (by rfl) (by rfl)⟩

/-- C6: Unassign of a pair with no active assignment fails with NotFound
(committing nothing); otherwise — under the pair-uniqueness invariant — it
cancels the active assignment in place, stamps its end time, appends exactly
one history row noting the removal, and an immediate second Unassign of the
same pair fails with NotFound. -/
theorem c6_unassign_not_found_or_cancel (db : DB) (cid rid : String)
    (now now2 : Nat) :
    (db.assignments.find? (isActivePair cid rid) = none →
      remove_resource_assignment_from_complaint db cid rid now
        = .error .notFound)
    ∧ (∀ a complaint, db.assignments.find? (isActivePair cid rid) = some a →
        findComplaint db cid = some complaint →
        countActivePair db cid rid ≤ 1 →
        ∃ db2 s t,
          remove_resource_assignment_from_complaint db cid rid now = .ok db2
          ∧ db.assignments = s ++ a :: t
          ∧ db2.assignments = s ++
              ({ a with status := "Cancelled", end_time := some now }) :: t
          ∧ db2.history = db.history ++
              [removeHistoryRow db cid rid complaint now]
          ∧ remove_resource_assignment_from_complaint db2 cid rid now2
              = .error .notFound) := by
  constructor
  · intro hnone
    exact remove_eq_error_of_none db cid rid now hnone
  · intro a complaint ha hc hcount
    obtain ⟨s, t, hsplit, hs, hpa, hupd⟩ :=
      updateFirst_decomp ha
        (fun x => { x with status := "Cancelled", end_time := some now })
    refine ⟨_, s, t, remove_resource_eq db cid rid now a complaint ha hc,
      hsplit, hupd, rfl, ?_⟩
    exact remove_eq_error_of_none _ cid rid now2
      (no_active_after_cancel db cid rid now a ha hcount)

/-- Witness for C6: both hypotheses hold at the one-active-assignment state
and the theorem yields the cancel-then-NotFound behaviour there. -/
theorem c6_witness :
    dbOneActive.assignments.find? (isActivePair "C1" "R1")
        = some (activeAssignment 0 "C1" "R1" 1)
    ∧ findComplaint dbOneActive "C1" = some complaintC1
    ∧ countActivePair dbOneActive "C1" "R1" ≤ 1
    ∧ (∃ db2 s t,
        remove_resource_assignment_from_complaint dbOneActive "C1" "R1" 5
          = .ok db2
        ∧ dbOneActive.assignments = s ++ activeAssignment 0 "C1" "R1" 1 :: t
        ∧ db2.assignments = s ++
            ({ activeAssignment 0 "C1" "R1" 1 with
                status := "Cancelled", end_time := some 5 }) :: t
        ∧ db2.history = dbOneActive.history ++
            [removeHistoryRow dbOneActive "C1" "R1" complaintC1 5]
        ∧ remove_resource_assignment_from_complaint db2 "C1" "R1" 6
            = .error .notFound) :=
  ⟨by rfl, by rfl, by decide,
    (c6_unassign_not_found_or_cancel dbOneActive "C1" "R1" 5 6).2
      (activeAssignment 0 "C1" "R1" 1) complaintC1 (by rfl) (by rfl)
      (by decide)⟩

/-- C7: the intake handler stores the stripped classifier output verbatim.
An invalid classifier output such as "Urgent" becomes the priority of the
created complaint instead of the claimed "Medium" fallback, and a classifier
failure propagates out of the handler instead of falling back.  The
repository even defines `fallback_priority`, which maps "Urgent" to
"Medium", but no route calls it. -/
theorem c7_invalid_classifier_output_stored_verbatim :
    (submit_new_complaint dbEmpty "t" "d" "roads" "U1" "Alice"
        (.ok "Urgent") 3).map (fun p => p.2.priority) = .ok "Urgent"
    ∧ fallback_priority "Urgent" = "Medium"
    ∧ ("Urgent" : String) ≠ "Medium"
    ∧ submit_new_complaint dbEmpty "t" "d" "roads" "U1" "Alice"
        (.error ()) 3 = .error .internalError :=
  ⟨by rfl, by rfl, by decide, by rfl⟩

/-- C8 counterexample: the handler issues no order_by, so rows come back in
table order; at this state the returned assigned_at sequence is [5, 3],
which is not ascending, refuting the claimed ordering. -/
theorem c8_counterexample_not_sorted_by_assigned_at :
    (get_complaint_assigned_resources dbOutOfOrder "C1").map
      (fun views => views.map (fun v => v.assignment.assigned_at))
      = .ok [5, 3]
    ∧ ¬ List.Sorted (fun x y => x ≤ y) [5, 3] :=
  ⟨by rfl, by decide⟩

/-- Mapping the assignment projection over the inner join recovers the
filtered rows when every referenced resource resolves. -/
theorem filterMap_join_map_assignment (res : List Resource) :
    ∀ (l : List ResourceAssignment),
    (∀ a ∈ l, (findResource res a.resource_id).isSome = true) →
    (l.filterMap (fun a => (findResource res a.resource_id).map
        (fun r => ({ assignment := a, resource := r } : AssignmentView)))).map
      AssignmentView.assignment = l
  | [], _ => rfl
  | a :: l, h => by
    obtain ⟨r, hr⟩ :=
      Option.isSome_iff_exists.mp (h a (List.mem_cons_self a l))
    simp only [List.filterMap_cons, hr, Option.map_some', List.map_cons]
    rw [filterMap_join_map_assignment res l
      (fun x hx => h x (List.mem_cons_of_mem a hx))]

/-- C8 amended: the handler returns all assignment rows of the complaint —
any status — each joined with its resource row, in table (insertion) order;
no ordering by assigned_at is applied. -/
theorem c8_amended_returns_all_in_table_order (db : DB) (cid : String)
    (complaint : Complaint) (hc : findComplaint db cid = some complaint)
    (href : ∀ a ∈ db.assignments,
      (findResource db.resources a.resource_id).isSome = true) :
    ∃ views, get_complaint_assigned_resources db cid = .ok views
      ∧ views.map AssignmentView.assignment =
          db.assignments.filter (fun a => a.complaint_id == cid)
      ∧ ∀ v ∈ views, findResource db.resources v.assignment.resource_id
          = some v.resource := by
  have heq : get_complaint_assigned_resources db cid =
      .ok ((db.assignments.filter (fun a => a.complaint_id == cid)).filterMap
        (fun a => (findResource db.resources a.resource_id).map
          (fun r => { assignment := a, resource := r }))) := by
    unfold get_complaint_assigned_resources
    rw [hc]
  refine ⟨_, heq, ?_, ?_⟩
  · exact filterMap_join_map_assignment db.resources _
      (fun a haf => href a (List.mem_filter.mp haf).1)
  · intro v hv
    rw [List.mem_filterMap] at hv
    obtain ⟨a, ha, hmap⟩ := hv
    cases hfr : findResource db.resources a.resource_id with
    | none => rw [hfr] at hmap; simp at hmap
    | some r =>
      rw [hfr] at hmap
      simp only [Option.map_some', Option.some.injEq] at hmap
      subst hmap
      exact hfr

/-- Witness for the amended C8 theorem at the out-of-order state. -/
theorem c8_amended_witness :
    findComplaint dbOutOfOrder "C1" = some complaintC1
    ∧ (∀ a ∈ dbOutOfOrder.assignments,
        (findResource dbOutOfOrder.resources a.resource_id).isSome = true)
    ∧ ∃ views, get_complaint_assigned_resources dbOutOfOrder "C1" = .ok views
      ∧ views.map AssignmentView.assignment =
          dbOutOfOrder.assignments.filter (fun a => a.complaint_id == "C1")
      ∧ ∀ v ∈ views, findResource dbOutOfOrder.resources
          v.assignment.resource_id = some v.resource :=
  ⟨by rfl, by decide,
    c8_amended_returns_all_in_table_order dbOutOfOrder "C1" complaintC1
      (by rfl) (by decide)⟩

/-- Assign of a single resource id that resolves and has no active
assignment for the pair creates and reports a new assignment in state
Assigned. -/
theorem assign_single_creates (db : DB) (cid rid : String)
    (notes : Option String) (est : Option Nat) (now : Nat)
    (complaint : Complaint) (r0 : Resource)
    (hc : findComplaint db cid = some complaint)
    (hres : findResource db.resources rid = some r0)
    (hnone : db.assignments.find? (isActivePair cid rid) = none) :
    ∃ db3 assigned,
      assign_resources_to_complaint db cid [rid] notes est now
        = .ok (db3, assigned)
      ∧ assigned ≠ []
      ∧ ∃ a2 ∈ db3.assignments, a2.complaint_id = cid ∧ a2.resource_id = rid
          ∧ a2.status = "Assigned" := by
  refine ⟨_, _, assign_resources_eq db cid [rid] notes est now complaint hc,
    ?_, ?_⟩
  · unfold assignFinal
    rw [List.foldl_cons, List.foldl_nil]
    unfold assignStep
    simp only [show findResource (assignInit db).resources rid = some r0
        from hres, hnone, Option.isSome_none, Bool.false_eq_true, if_false]
    simp [assignInit]
  · show ∃ a2 ∈ db.assignments ++
      (assignFinal db cid [rid] notes est now).newAssignments,
      a2.complaint_id = cid ∧ a2.resource_id = rid ∧ a2.status = "Assigned"
    obtain ⟨a2, hmem, hP⟩ :=
      (assignLoop_new_iff cid notes est db.assignments now [rid]
        (assignInit db) rid).mpr
        (Or.inr ⟨List.mem_singleton.mpr rfl,
          by rw [show findResource (assignInit db).resources rid = some r0
            from hres]; rfl,
          by rw [hnone]; rfl⟩)
    exact ⟨a2, List.mem_append.mpr (Or.inr hmem), hP⟩

/-- C9: unassigning the unique active assignment of a pair and then
assigning the same resource to the same complaint succeeds — the cancelled
row does not block re-assignment, and a new assignment in state Assigned is
created for the pair. -/
theorem c9_unassign_then_assign_succeeds (db : DB) (cid rid : String)
    (now1 now2 : Nat) (a : ResourceAssignment) (complaint : Complaint)
    (r0 : Resource)
    (ha : db.assignments.find? (isActivePair cid rid) = some a)
    (hc : findComplaint db cid = some complaint)
    (hres : findResource db.resources rid = some r0)
    (hcount : countActivePair db cid rid ≤ 1) :
    ∃ db2, remove_resource_assignment_from_complaint db cid rid now1
        = .ok db2
      ∧ ∃ db3 assigned,
        assign_resources_to_complaint db2 cid [rid] none none now2
          = .ok (db3, assigned)
        ∧ assigned ≠ []
        ∧ ∃ a2 ∈ db3.assignments, a2.complaint_id = cid
            ∧ a2.resource_id = rid ∧ a2.status = "Assigned" := by
  have hrem := remove_resource_eq_res_some db cid rid now1 a r0 complaint ha
    hres hc
  have hres2 : findResource (updateFirst (fun r => r.id == rid)
      (fun r => { r with availability_status := "Available" })
      db.resources) rid = some { r0 with availability_status := "Available" }
      := by
    have h1 := findResource_updateFirst db.resources rid rid
      (fun x => { x with availability_status := "Available" }) (fun x => rfl)
    rw [if_pos rfl, hres] at h1
    exact h1
  have hnone2 := no_active_after_cancel db cid rid now1 a ha hcount
  exact ⟨_, hrem,
    assign_single_creates _ cid rid none none now2 complaint
      { r0 with availability_status := "Available" } hc hres2 hnone2⟩

/-- Witness for C9 at the one-active-assignment state. -/
theorem c9_witness :
    dbOneActive.assignments.find? (isActivePair "C1" "R1")
        = some (activeAssignment 0 "C1" "R1" 1)
    ∧ findComplaint dbOneActive "C1" = some complaintC1
    ∧ findResource dbOneActive.resources "R1"
        = some { resourceR1 with availability_status := "Busy" }
    ∧ countActivePair dbOneActive "C1" "R1" ≤ 1
    ∧ (∃ db2, remove_resource_assignment_from_complaint dbOneActive "C1" "R1" 7
          = .ok db2
        ∧ ∃ db3 assigned,
          assign_resources_to_complaint db2 "C1" ["R1"] none none 8
            = .ok (db3, assigned)
          ∧ assigned ≠ []
          ∧ ∃ a2 ∈ db3.assignments, a2.complaint_id = "C1"
              ∧ a2.resource_id = "R1" ∧ a2.status = "Assigned") :=
  ⟨by rfl, by rfl, by rfl, by decide,
    c9_unassign_then_assign_succeeds dbOneActive "C1" "R1" 7 8
      (activeAssignment 0 "C1" "R1" 1) complaintC1
      { resourceR1 with availability_status := "Busy" } (by rfl) (by rfl)
      (by rfl) (by decide)⟩

end CityCare
